import Mathlib

/-!
Verification development for the polyconstruct repository's elasticity core
(`src/polyengine/gridutils.py` and `src/polyengine/diffequations.py`).

The Python code works on floats; the embedding uses exact rationals `ℚ`, so
every arithmetic identity below is the ideal-arithmetic content of the code.
Python exceptions (dereferencing the `None` returned by an out-of-bounds
`Grid.get_cell`, i.e. `AttributeError`) are modelled by `Option`: a phase that
would raise on some cell returns `none`.

Batteries marks the `Rat` operations `@[irreducible]`; that is an
elaboration-time setting only (the kernel ignores reducibility), and it is
lifted locally so that `decide` can evaluate concrete rational arithmetic.
-/

attribute [local semireducible] Rat.add Rat.mul Rat.sub Rat.inv

set_option maxRecDepth 100000

/-- Embeds `metricutils.Vector2`: a 2D vector with rational components. -/
structure Vector2 where
  x : ℚ
  y : ℚ
deriving DecidableEq

/-- Componentwise vector addition (`Vector2.__add__`). -/
instance : Add Vector2 := ⟨fun a b => ⟨a.x + b.x, a.y + b.y⟩⟩

/-- Scaling a vector by a scalar on the right (`Vector2.__mul__` with a number). -/
instance : HMul Vector2 ℚ Vector2 := ⟨fun v c => ⟨v.x * c, v.y * c⟩⟩

/-- The zero vector `Vector2(0, 0)`. -/
def Vector2.zero : Vector2 := ⟨0, 0⟩

/-- Embeds `diffequations.Tensor`: a 2x2 matrix `[[xx, xy], [yx, yy]]`. -/
structure Tensor where
  xx : ℚ
  xy : ℚ
  yx : ℚ
  yy : ℚ
deriving DecidableEq

/-- Componentwise tensor addition (`Tensor.__add__`). -/
instance : Add Tensor := ⟨fun a b => ⟨a.xx + b.xx, a.xy + b.xy, a.yx + b.yx, a.yy + b.yy⟩⟩

/-- Scaling a tensor by a scalar on the left (`Tensor.__rmul__`). -/
instance : HMul ℚ Tensor Tensor := ⟨fun c t => ⟨t.xx * c, t.xy * c, t.yx * c, t.yy * c⟩⟩

/-- Matrix transpose (`Tensor.transpose`). -/
def Tensor.transpose (t : Tensor) : Tensor := ⟨t.xx, t.yx, t.xy, t.yy⟩

/-- Matrix trace (`Tensor.trace`). -/
def Tensor.trace (t : Tensor) : ℚ := t.xx + t.yy

/-- The identity matrix (`Tensor.identity()`). -/
def Tensor.identity : Tensor := ⟨1, 0, 0, 1⟩

/-- The zero matrix (`Tensor.zero()`). -/
def Tensor.zero : Tensor := ⟨0, 0, 0, 0⟩

/-- Embeds `diffequations.Material` (constructor field order preserved). -/
structure Material where
  material_name : String
  density : ℚ
  yield_strength : ℚ
  bulk_modulus : ℚ
  shear_modulus : ℚ
deriving DecidableEq

/-!
`gridutils.Grid` as used by the solver: a `columns x rows` array of cells whose
payload at position `(x, y)` is `val x y` (the Python object stores the payload
of `(x, y)` at `cells[y][x]`, and `get_cell` bounds-checks and returns `None`
out of range).  This function-backed view is what every solver claim needs; the
raw Python list representation of `replace_cell` (claim C9) is embedded
separately below as `PyGrid`.
-/

/-- A grid of payloads of type `α`, `columns` wide and `rows` high. -/
structure Grid (α : Type) where
  columns : Nat
  rows : Nat
  val : Nat → Nat → α

/-- Index of the last column (`Grid.column_end = columns - 1`). -/
def Grid.column_end {α : Type} (g : Grid α) : Nat := g.columns - 1

/-- Index of the last row (`Grid.row_end = rows - 1`). -/
def Grid.row_end {α : Type} (g : Grid α) : Nat := g.rows - 1

/-- Embeds `Grid.get_cell`: the payload at `(x, y)`, or `none` out of bounds. -/
def Grid.get_cell {α : Type} (g : Grid α) (x y : Nat) : Option α :=
  if x < g.columns ∧ y < g.rows then some (g.val x y) else none

/-- The two recognized axis tags of `diffequations.partial_derivative`
(any other tag raises `ValueError` in the source, which is outside this type). -/
inductive Direction where
  | x
  | y
deriving DecidableEq

/-- Embeds `diffequations.partial_derivative` on a scalar grid.  The Python
code reads the 3x3 neighbor window of `(x, y)`, whose entry `(a, b)` is the
global cell `(x + a - 1, y + b - 1)` (`None` when absent); dereferencing an
absent neighbor raises, which is the `none` case here.  Branch order follows
the source: the `x = 0` (resp. `y = 0`) test comes before the `column_end`
(resp. `row_end`) test, and the remaining case divides the two-cell spread by
`dx` (not by `2 * dx`). -/
def pderiv (g : Grid ℚ) (dx : ℚ) (x y : Nat) (d : Direction) : Option ℚ :=
  match d with
  | Direction.x =>
    if x = 0 then do
      let a ← g.get_cell (x + 1) y
      let b ← g.get_cell x y
      pure ((a - b) / dx)
    else if x = g.column_end then do
      let a ← g.get_cell x y
      let b ← g.get_cell (x - 1) y
      pure ((a - b) / dx)
    else do
      let a ← g.get_cell (x + 1) y
      let b ← g.get_cell (x - 1) y
      pure ((a - b) / dx)
  | Direction.y =>
    if y = 0 then do
      let a ← g.get_cell x (y + 1)
      let b ← g.get_cell x y
      pure ((a - b) / dx)
    else if y = g.row_end then do
      let a ← g.get_cell x y
      let b ← g.get_cell x (y - 1)
      pure ((a - b) / dx)
    else do
      let a ← g.get_cell x (y + 1)
      let b ← g.get_cell x (y - 1)
      pure ((a - b) / dx)

/-- Embeds `diffequations.vector_gradient`: the source copies the `.x` and
`.y` components of the vector field into two same-shaped scalar grids, takes
the four partial derivatives there, and assembles
`Tensor(pxx, pxy, pyx, pyy)`. -/
def vector_gradient (g : Grid Vector2) (dx : ℚ) (x y : Nat) : Option Tensor := do
  let gx : Grid ℚ := ⟨g.columns, g.rows, fun a b => (g.val a b).x⟩
  let gy : Grid ℚ := ⟨g.columns, g.rows, fun a b => (g.val a b).y⟩
  let pxx ← pderiv gx dx x y Direction.x
  let pxy ← pderiv gx dx x y Direction.y
  let pyx ← pderiv gy dx x y Direction.x
  let pyy ← pderiv gy dx x y Direction.y
  pure ⟨pxx, pxy, pyx, pyy⟩

/-- Embeds `diffequations.vector_divergence`: trace of the vector gradient. -/
def vector_divergence (g : Grid Vector2) (dx : ℚ) (x y : Nat) : Option ℚ :=
  (vector_gradient g dx x y).map Tensor.trace

/-- Embeds `diffequations.tensor_divergence`.  The source fills its first
auxiliary vector grid with `(data.xx, data.yx)` and its second with
`(data.xy, data.yy)` — the two COLUMN vectors of the tensor — and returns
their divergences as a `Vector2`. -/
def tensor_divergence (g : Grid Tensor) (dx : ℚ) (x y : Nat) : Option Vector2 := do
  let gx : Grid Vector2 := ⟨g.columns, g.rows, fun a b => ⟨(g.val a b).xx, (g.val a b).yx⟩⟩
  let gy : Grid Vector2 := ⟨g.columns, g.rows, fun a b => ⟨(g.val a b).xy, (g.val a b).yy⟩⟩
  let dvx ← vector_divergence gx dx x y
  let dvy ← vector_divergence gy dx x y
  pure ⟨dvx, dvy⟩

/-- Modelled from the spec's words (spec section 4.2, for comparison with the
source's `tensor_divergence`): decompose the tensor field into its two
ROW-vector fields `(xx, xy)` and `(yx, yy)` and return
`(div(row_x), div(row_y))`. -/
def tensor_divergence_rows (g : Grid Tensor) (dx : ℚ) (x y : Nat) : Option Vector2 := do
  let gx : Grid Vector2 := ⟨g.columns, g.rows, fun a b => ⟨(g.val a b).xx, (g.val a b).xy⟩⟩
  let gy : Grid Vector2 := ⟨g.columns, g.rows, fun a b => ⟨(g.val a b).yx, (g.val a b).yy⟩⟩
  let dvx ← vector_divergence gx dx x y
  let dvy ← vector_divergence gy dx x y
  pure ⟨dvx, dvy⟩

/-- The grid of pointwise transposes of a tensor grid. -/
def transposeGrid (g : Grid Tensor) : Grid Tensor :=
  ⟨g.columns, g.rows, fun a b => (g.val a b).transpose⟩

/-- Bool-valued check that `p` holds on every cell of a `cols x rows` grid,
mirroring the solver's `for column in cells: for cell in column:` loops. -/
def allCells (cols rows : Nat) (p : Nat → Nat → Bool) : Bool :=
  (List.range cols).all fun x => (List.range rows).all fun y => p x y

/-!
The solver `diffequations.LinearElasticityPDE`.  Its grids all share one
`(columns, rows)` topology (the four solver-owned grids are constructed with
identical dimensions in `__init__`, and the caller-supplied material and force
grids are co-registered with them, spec section 3).  Each grid is carried as
its payload function; the spatial loops of the four phase methods mutate each
cell exactly once, and every per-cell value reads only grids that the running
loop does not mutate (or, in `update_u`, only the not-yet-updated cell itself),
so each phase is the pointwise map written below.  A phase in which some
per-cell computation would raise (an absent-neighbor dereference) aborts
without completing; such a phase is `none`.
-/

/-- Embeds the state of `diffequations.LinearElasticityPDE`. -/
structure LinearElasticityPDE where
  columns : Nat
  rows : Nat
  material_dist : Nat → Nat → Material
  external_force_field : Nat → Nat → Vector2
  stresses : Nat → Nat → Tensor
  strains : Nat → Nat → Tensor
  displacements : Nat → Nat → Vector2
  velocities : Nat → Nat → Vector2
  total_length : ℚ
  total_height : ℚ
  total_time : ℚ
  current_time : ℚ
  dx : ℚ
  dt : ℚ

/-- The stresses grid of the solver, as a bounds-checked grid. -/
def LinearElasticityPDE.stressGrid (s : LinearElasticityPDE) : Grid Tensor :=
  ⟨s.columns, s.rows, s.stresses⟩

/-- The displacements grid of the solver, as a bounds-checked grid. -/
def LinearElasticityPDE.dispGrid (s : LinearElasticityPDE) : Grid Vector2 :=
  ⟨s.columns, s.rows, s.displacements⟩

/-- Embeds `LinearElasticityPDE.get_material` (claims use in-range cells, where
the source's `get_cell(i, j).data` is exactly the stored payload). -/
def LinearElasticityPDE.get_material (s : LinearElasticityPDE) (i j : Nat) : Material :=
  s.material_dist i j

/-- Embeds `LinearElasticityPDE.get_external_force`. -/
def LinearElasticityPDE.get_external_force (s : LinearElasticityPDE) (i j : Nat) : Vector2 :=
  s.external_force_field i j

/-- Embeds `LinearElasticityPDE.get_u_double_dot`: `Vector2(0, 0)` when the
cell material's density is falsy (`not density`, i.e. density `= 0`), else
`(tensor_divergence(stresses, dx, i, j) + external_force(i, j)) * (1 / density)`. -/
def LinearElasticityPDE.get_u_double_dot (s : LinearElasticityPDE) (i j : Nat) : Option Vector2 :=
  if (s.get_material i j).density = 0 then some Vector2.zero
  else
    (tensor_divergence s.stressGrid s.dx i j).map
      (fun td => (td + s.get_external_force i j) * (1 / (s.get_material i j).density))

/-- Embeds `LinearElasticityPDE.get_u_dot`: the velocity stored at `(i, j)`. -/
def LinearElasticityPDE.get_u_dot (s : LinearElasticityPDE) (i j : Nat) : Vector2 :=
  s.velocities i j

/-- Embeds `LinearElasticityPDE.update_u_dot`: for every cell of the
VELOCITIES grid, `cell.data += get_u_double_dot(cell.x, cell.y) * dt`.  The
per-cell value reads only the stresses, force and material grids, which the
loop does not touch. -/
def LinearElasticityPDE.update_u_dot (s : LinearElasticityPDE) : Option LinearElasticityPDE :=
  if allCells s.columns s.rows (fun x y => (s.get_u_double_dot x y).isSome) then
    some { s with velocities := fun x y =>
      if x < s.columns ∧ y < s.rows then
        s.velocities x y + ((s.get_u_double_dot x y).getD Vector2.zero) * s.dt
      else s.velocities x y }
  else none

/-- Embeds `LinearElasticityPDE.update_u`.  BUG FAITHFULLY KEPT: the source's
loop iterates over `self.velocities.cells` (not the displacements grid), so it
performs `velocities[x, y] += velocities[x, y] * dt` on every cell and never
touches the displacements grid.  Each cell reads only its own pre-update
value, and nothing can raise, so this phase is total. -/
def LinearElasticityPDE.update_u (s : LinearElasticityPDE) : LinearElasticityPDE :=
  { s with velocities := fun x y =>
      if x < s.columns ∧ y < s.rows then
        s.velocities x y + (s.get_u_dot x y) * s.dt
      else s.velocities x y }

/-- Embeds `LinearElasticityPDE.get_strain`:
`0.5 * (grad_u + grad_u.transpose)` with `grad_u` the displacement gradient. -/
def LinearElasticityPDE.get_strain (s : LinearElasticityPDE) (i j : Nat) : Option Tensor :=
  (vector_gradient s.dispGrid s.dx i j).map
    (fun grad_u => ((1 : ℚ) / 2) * (grad_u + grad_u.transpose))

/-- Embeds `LinearElasticityPDE.update_strain`: for every cell of the strains
grid, `cell.data = get_strain(cell.x, cell.y)`; reads only displacements. -/
def LinearElasticityPDE.update_strain (s : LinearElasticityPDE) : Option LinearElasticityPDE :=
  if allCells s.columns s.rows (fun x y => (s.get_strain x y).isSome) then
    some { s with strains := fun x y =>
      if x < s.columns ∧ y < s.rows then (s.get_strain x y).getD Tensor.zero
      else s.strains x y }
  else none

/-- Embeds `LinearElasticityPDE.get_stress`: with strain recomputed from the
displacements, `lame_1 = shear_modulus`, `lame_2 = bulk_modulus - (2/3) * lame_1`,
result `2 * lame_1 * strain + lame_2 * trace(strain) * identity`. -/
def LinearElasticityPDE.get_stress (s : LinearElasticityPDE) (i j : Nat) : Option Tensor :=
  (s.get_strain i j).map (fun strain =>
    let lame_coefficient_1 := (s.get_material i j).shear_modulus
    let lame_coefficient_2 := (s.get_material i j).bulk_modulus - ((2 : ℚ) / 3) * lame_coefficient_1
    (2 * lame_coefficient_1) * strain + (lame_coefficient_2 * strain.trace) * Tensor.identity)

/-- Embeds `LinearElasticityPDE.update_stress`.  BUG FAITHFULLY KEPT: the
source's loop iterates over `self.strains.cells`, so the constitutive-law
values are written into the STRAINS grid and the stresses grid is never
written.  `get_stress` reads only displacements and material (never the grid
being overwritten), so the loop is still this pointwise map. -/
def LinearElasticityPDE.update_stress (s : LinearElasticityPDE) : Option LinearElasticityPDE :=
  if allCells s.columns s.rows (fun x y => (s.get_stress x y).isSome) then
    some { s with strains := fun x y =>
      if x < s.columns ∧ y < s.rows then (s.get_stress x y).getD Tensor.zero
      else s.strains x y }
  else none

/-- Embeds `LinearElasticityPDE.step`, in the source's order:
`update_u_dot()` (velocity), then `update_u()`, then `update_strain()`, then
`update_stress()`, then `current_time += dt`. -/
def LinearElasticityPDE.step (s : LinearElasticityPDE) : Option LinearElasticityPDE := do
  let s1 ← s.update_u_dot
  let s2 := s1.update_u
  let s3 ← s2.update_strain
  let s4 ← s3.update_stress
  pure { s4 with current_time := s4.current_time + s4.dt }

/-- Modelled from the spec's words (claim C3): the phase order the claim
asserts for `step`, namely the displacement update (`update_u`) first, then
the velocity update (`update_u_dot`), then strain, then stress, using the
source's own phase methods. -/
def LinearElasticityPDE.step_claimed (s : LinearElasticityPDE) : Option LinearElasticityPDE := do
  let s1 := s.update_u
  let s2 ← s1.update_u_dot
  let s3 ← s2.update_strain
  let s4 ← s3.update_stress
  pure { s4 with current_time := s4.current_time + s4.dt }

/-- Python `int()` applied to a nonnegative rational (truncation towards zero,
used by `__init__` for the grid dimensions `int(total_length / dx)`). -/
def pyInt (q : ℚ) : Nat := q.floor.toNat

/-- Embeds `LinearElasticityPDE.__init__`: `int(L/dx) x int(H/dx)` grids, the
stresses and strains grids filled with `Tensor.zero()`, the displacements and
velocities grids with `Vector2(0, 0)`, and `current_time = 0`. -/
def LinearElasticityPDE.init (material_dist : Nat → Nat → Material)
    (external_force_field : Nat → Nat → Vector2)
    (total_length total_height total_time dx dt : ℚ) : LinearElasticityPDE :=
  { columns := pyInt (total_length / dx)
    rows := pyInt (total_height / dx)
    material_dist := material_dist
    external_force_field := external_force_field
    stresses := fun _ _ => Tensor.zero
    strains := fun _ _ => Tensor.zero
    displacements := fun _ _ => Vector2.zero
    velocities := fun _ _ => Vector2.zero
    total_length := total_length
    total_height := total_height
    total_time := total_time
    current_time := 0
    dx := dx
    dt := dt }

/-- `n` consecutive calls of `step`, aborting if any step raises. -/
def stepN : Nat → LinearElasticityPDE → Option LinearElasticityPDE
  | 0, s => some s
  | n + 1, s => (s.step).bind (stepN n)

/-!
The raw list representation of `gridutils.Grid` for claim C9.  In the source,
`self.cells` is a list of ROWS (each row a list of `columns` cells):
`get_cell(column, row)` bounds-checks `0 <= row < len(cells)` and
`0 <= column < len(cells[0])` and returns `cells[row][column]`, while
`replace_cell(column, row, cell)` copies `self.cells[column]`, assigns index
`row` in the copy, and stores it back — Python list indexing, which wraps
negative indices and raises `IndexError` (here `none`) only beyond `-len`
or `>= len`.
-/

/-- Resolution of a Python list index: in-range nonnegative indices stand,
negative indices wrap once, anything else raises (`none`). -/
def pyIdx (len : Nat) (i : Int) : Option Nat :=
  if 0 ≤ i ∧ i < (len : Int) then some i.toNat
  else if -(len : Int) ≤ i ∧ i < 0 then some ((len : Int) + i).toNat
  else none

/-- Python `l[i]`. -/
def pyGetElem {α : Type} (l : List α) (i : Int) : Option α :=
  (pyIdx l.length i).bind fun k => l.get? k

/-- Python `l[i] = a` (on a copy, as `replace_cell` does via `copy.copy`). -/
def pySetElem {α : Type} (l : List α) (i : Int) (a : α) : Option (List α) :=
  (pyIdx l.length i).map fun k => l.set k a

/-- The list-of-rows cell storage of `gridutils.Grid`. -/
structure PyGrid (α : Type) where
  cells : List (List α)
deriving DecidableEq

/-- Embeds `Grid.replace_cell(column, row, cell)` exactly as written:
`r = copy.copy(self.cells[column]); r[row] = cell; self.cells[column] = r`. -/
def PyGrid.replace_cell {α : Type} (g : PyGrid α) (column row : Int) (cell : α) :
    Option (PyGrid α) := do
  let r ← pyGetElem g.cells column
  let r1 ← pySetElem r row cell
  let cells1 ← pySetElem g.cells column r1
  pure ⟨cells1⟩

/-- Embeds `Grid.get_cell(column, row)`: `None` unless
`0 <= row < len(cells)` and `0 <= column < len(cells[0])`, else
`cells[row][column]`. -/
def PyGrid.get_cell {α : Type} (g : PyGrid α) (column row : Int) : Option α :=
  if (0 ≤ row ∧ row < (g.cells.length : Int)) ∧
     (0 ≤ column ∧ column < ((g.cells.headD []).length : Int)) then
    (pyGetElem g.cells row).bind fun r => pyGetElem r column
  else none

/-!
Concrete states used by the counterexamples and witnesses.  `mkS` builds a
2 x 2 solver state with `dx = 1` (2 x 2 is the smallest topology on which no
stencil read is absent, so every phase completes as it does in the source).
-/

/-- A 2 x 2 solver state with `dx = 1` and the given grids and `dt`. -/
def mkS (mat : Nat → Nat → Material) (force disp vel : Nat → Nat → Vector2)
    (strn strs : Nat → Nat → Tensor) (dt : ℚ) : LinearElasticityPDE :=
  { columns := 2
    rows := 2
    material_dist := mat
    external_force_field := force
    stresses := strs
    strains := strn
    displacements := disp
    velocities := vel
    total_length := 2
    total_height := 2
    total_time := 1
    current_time := 0
    dx := 1
    dt := dt }

/-- A material with the given density, bulk modulus and shear modulus. -/
def mkMat (d K mu : ℚ) : Material :=
  { material_name := "m", density := d, yield_strength := 0, bulk_modulus := K
    shear_modulus := mu }

/-- C1 input: every velocity `(1, 0)`, zero displacements, `dt = 1`. -/
def testC1 : LinearElasticityPDE :=
  mkS (fun _ _ => mkMat 1 0 0) (fun _ _ => Vector2.zero) (fun _ _ => Vector2.zero)
    (fun _ _ => ⟨1, 0⟩) (fun _ _ => Tensor.zero) (fun _ _ => Tensor.zero) 1

/-- C2 input: displacement field `u(x, y) = (x, 0)` (unit shear-free stretch),
material with `shear_modulus = 3` and `bulk_modulus = 5`. -/
def testC2 : LinearElasticityPDE :=
  mkS (fun _ _ => mkMat 1 5 3) (fun _ _ => Vector2.zero)
    (fun x _ => ⟨(x : ℚ), 0⟩) (fun _ _ => Vector2.zero)
    (fun _ _ => Tensor.zero) (fun _ _ => Tensor.zero) 1

/-- C3 input: zero velocities and stresses, unit density, external force
`(1, 0)` everywhere, `dt = 1`, so the acceleration is `(1, 0)` on every cell. -/
def testC3 : LinearElasticityPDE :=
  mkS (fun _ _ => mkMat 1 0 0) (fun _ _ => ⟨1, 0⟩) (fun _ _ => Vector2.zero)
    (fun _ _ => Vector2.zero) (fun _ _ => Tensor.zero) (fun _ _ => Tensor.zero) 1

/-- C4 input: a 3 x 1 scalar grid holding the linear field `f(x) = x`. -/
def testC4 : Grid ℚ := ⟨3, 1, fun x _ => (x : ℚ)⟩

/-- C5 counterexample input: `dt = 0` but the strains grid holds a tensor that
is not the constitutive-law value of the (zero) displacement field. -/
def testC5c : LinearElasticityPDE :=
  mkS (fun _ _ => mkMat 1 0 0) (fun _ _ => Vector2.zero) (fun _ _ => Vector2.zero)
    (fun _ _ => Vector2.zero) (fun _ _ => ⟨1, 2, 3, 4⟩) (fun _ _ => Tensor.zero) 0

/-- C5 witness input: `dt = 0` with nonzero velocities, displacements and
stresses. -/
def testC5w : LinearElasticityPDE :=
  mkS (fun _ _ => mkMat 2 5 3) (fun _ _ => ⟨1, 1⟩) (fun _ _ => ⟨1, 2⟩)
    (fun _ _ => ⟨3, 4⟩) (fun _ _ => ⟨1, 2, 3, 4⟩) (fun _ _ => ⟨5, 6, 7, 8⟩) 0

/-- C6 counterexample input: NEGATIVE density `-1`, external force `(1, 0)`,
zero stresses. -/
def testC6 : LinearElasticityPDE :=
  mkS (fun _ _ => mkMat (-1) 0 0) (fun _ _ => ⟨1, 0⟩) (fun _ _ => Vector2.zero)
    (fun _ _ => Vector2.zero) (fun _ _ => Tensor.zero) (fun _ _ => Tensor.zero) 1

/-- C6 witness input (nonzero branch): density `2`, external force `(4, 0)`. -/
def testC6b : LinearElasticityPDE :=
  mkS (fun _ _ => mkMat 2 0 0) (fun _ _ => ⟨4, 0⟩) (fun _ _ => Vector2.zero)
    (fun _ _ => Vector2.zero) (fun _ _ => Tensor.zero) (fun _ _ => Tensor.zero) 1

/-- C6 witness input (zero branch): density `0` with a nonzero force. -/
def testC6c : LinearElasticityPDE :=
  mkS (fun _ _ => mkMat 0 0 0) (fun _ _ => ⟨4, 0⟩) (fun _ _ => Vector2.zero)
    (fun _ _ => Vector2.zero) (fun _ _ => Tensor.zero) (fun _ _ => Tensor.zero) 1

/-- C7 input: a 2 x 2 NON-symmetric tensor field with `yx = y` and all other
components zero, `dx = 1`. -/
def testC7 : Grid Tensor := ⟨2, 2, fun _ y => ⟨0, 0, (y : ℚ), 0⟩⟩

/-- C8 witness input: a 2 x 2 solver built by `init` over a zero-density
material (the driver's "air") and zero force. -/
def testC8 : LinearElasticityPDE :=
  LinearElasticityPDE.init (fun _ _ => mkMat 0 0 0) (fun _ _ => Vector2.zero) 2 2 1 1 1

/-- C9 input: the cell storage of `Grid(2, 3, ...)` — 3 rows of 2 columns,
with the payload at position `(x, y)` equal to `10 * y + x`. -/
def testC9 : PyGrid Nat := ⟨[[0, 1], [10, 11], [20, 21]]⟩

/-!
Helper lemmas about the embedding (shared by several claims).
-/

/-- `allCells` is the conjunction of `p` over all in-range cells. -/
theorem allCells_iff (c r : Nat) (p : Nat → Nat → Bool) :
    allCells c r p = true ↔ ∀ x, x < c → ∀ y, y < r → p x y = true := by
  simp [allCells, List.all_eq_true, List.mem_range]

/-- Scaling a vector by the scalar `0` yields the zero vector. -/
theorem vecMulZero (v : Vector2) : v * (0 : ℚ) = Vector2.zero := by
  show Vector2.mk (v.x * 0) (v.y * 0) = Vector2.zero
  rw [mul_zero, mul_zero]
  rfl

/-- Adding the zero vector is the identity. -/
theorem vecAddZero (v : Vector2) : v + Vector2.zero = v := by
  show Vector2.mk (v.x + 0) (v.y + 0) = v
  rw [add_zero, add_zero]

/-- A successful `update_u_dot` is exactly the pointwise velocity update. -/
theorem update_u_dot_some {s t : LinearElasticityPDE} (h : s.update_u_dot = some t) :
    allCells s.columns s.rows (fun x y => (s.get_u_double_dot x y).isSome) = true ∧
    t = { s with velocities := fun x y =>
      if x < s.columns ∧ y < s.rows then
        s.velocities x y + ((s.get_u_double_dot x y).getD Vector2.zero) * s.dt
      else s.velocities x y } := by
  unfold LinearElasticityPDE.update_u_dot at h
  split at h
  · exact ⟨by assumption, (Option.some.inj h).symm⟩
  · cases h

/-- A successful `update_strain` is exactly the pointwise strain overwrite. -/
theorem update_strain_some {s t : LinearElasticityPDE} (h : s.update_strain = some t) :
    allCells s.columns s.rows (fun x y => (s.get_strain x y).isSome) = true ∧
    t = { s with strains := fun x y =>
      if x < s.columns ∧ y < s.rows then (s.get_strain x y).getD Tensor.zero
      else s.strains x y } := by
  unfold LinearElasticityPDE.update_strain at h
  split at h
  · exact ⟨by assumption, (Option.some.inj h).symm⟩
  · cases h

/-- A successful `update_stress` is exactly the pointwise overwrite of the
STRAINS grid with the constitutive-law values. -/
theorem update_stress_some {s t : LinearElasticityPDE} (h : s.update_stress = some t) :
    allCells s.columns s.rows (fun x y => (s.get_stress x y).isSome) = true ∧
    t = { s with strains := fun x y =>
      if x < s.columns ∧ y < s.rows then (s.get_stress x y).getD Tensor.zero
      else s.strains x y } := by
  unfold LinearElasticityPDE.update_stress at h
  split at h
  · exact ⟨by assumption, (Option.some.inj h).symm⟩
  · cases h

/-- A successful `step` decomposes into its four phases in the source's
order: velocity update, then `update_u`, then strain, then stress. -/
theorem step_decomp {s t : LinearElasticityPDE} (h : s.step = some t) :
    ∃ s1 s3 s4, s.update_u_dot = some s1 ∧ (s1.update_u).update_strain = some s3 ∧
      s3.update_stress = some s4 ∧
      t = { s4 with current_time := s4.current_time + s4.dt } := by
  unfold LinearElasticityPDE.step at h
  cases h1 : s.update_u_dot with
  | none => rw [h1] at h; cases h
  | some s1 =>
    rw [h1] at h
    replace h : ((s1.update_u).update_strain).bind
        (fun s3 => (s3.update_stress).bind
          (fun s4 => some { s4 with current_time := s4.current_time + s4.dt })) = some t := h
    cases h3 : (s1.update_u).update_strain with
    | none => rw [h3] at h; cases h
    | some s3 =>
      rw [h3] at h
      replace h : (s3.update_stress).bind
          (fun s4 => some { s4 with current_time := s4.current_time + s4.dt }) = some t := h
      cases h4 : s3.update_stress with
      | none => rw [h4] at h; cases h
      | some s4 =>
        rw [h4] at h
        replace h : some { s4 with current_time := s4.current_time + s4.dt } = some t := h
        exact ⟨s1, s3, s4, rfl, h3, h4, (Option.some.inj h).symm⟩

/-- No phase of `step` writes the displacements grid or the stresses grid. -/
theorem step_keeps_disp_stress {s t : LinearElasticityPDE} (h : s.step = some t) :
    t.displacements = s.displacements ∧ t.stresses = s.stresses := by
  obtain ⟨s1, s3, s4, h1, h3, h4, ht⟩ := step_decomp h
  obtain ⟨-, e1⟩ := update_u_dot_some h1
  obtain ⟨-, e3⟩ := update_strain_some h3
  obtain ⟨-, e4⟩ := update_stress_some h4
  subst ht e4 e3 e1
  exact ⟨rfl, rfl⟩

/-- Iterated steps never write the displacements grid or the stresses grid. -/
theorem stepN_keeps_disp_stress :
    ∀ (n : Nat) (s t : LinearElasticityPDE), stepN n s = some t →
      t.displacements = s.displacements ∧ t.stresses = s.stresses := by
  intro n
  induction n with
  | zero =>
    intro s t h
    cases Option.some.inj h
    exact ⟨rfl, rfl⟩
  | succ n ih =>
    intro s t h
    unfold stepN at h
    cases h1 : s.step with
    | none => rw [h1] at h; cases h
    | some u =>
      rw [h1] at h
      rw [Option.some_bind] at h
      obtain ⟨d1, d2⟩ := step_keeps_disp_stress h1
      obtain ⟨d3, d4⟩ := ih u t h
      exact ⟨d3.trans d1, d4.trans d2⟩

/-!
Claim theorems.
-/

/-- C1 (code bug, evaluated at the failing input): the phase-1 method
`update_u` does NOT perform `displacement[x,y] += velocity[x,y] * dt` — on a
state with every velocity `(1, 0)`, zero displacements and `dt = 1`, the
displacement at `(0, 0)` stays `(0, 0)` (the claim requires `(1, 0)`), while
the velocity grid, which the claim says is not modified by this phase, changes
from `(1, 0)` to `(2, 0)`: the source's loop iterates over
`self.velocities.cells`. -/
theorem C1_update_u_bug :
    testC1.velocities 0 0 = ⟨1, 0⟩ ∧
    (testC1.update_u).displacements 0 0 = Vector2.zero ∧
    (testC1.update_u).velocities 0 0 = ⟨2, 0⟩ := by
  decide

/-- C2 (code bug, evaluated at the failing input): on a state whose
displacement field is `u(x, y) = (x, 0)` with `shear_modulus = 3` and
`bulk_modulus = 5`, the constitutive-law value at `(0, 0)` is
`2*mu*eps + lambda*tr(eps)*I = [[9, 0], [0, 3]]`, but after `update_stress`
the stress grid still holds `Tensor.zero` while the STRAINS grid holds
`[[9, 0], [0, 3]]`: the source's loop iterates over `self.strains.cells`. -/
theorem C2_update_stress_bug :
    testC2.get_stress 0 0 = some ⟨9, 0, 0, 3⟩ ∧
    (testC2.update_stress).map (fun u => u.stresses 0 0) = some Tensor.zero ∧
    (testC2.update_stress).map (fun u => u.strains 0 0) = some ⟨9, 0, 0, 3⟩ := by
  decide

/-- C3 counterexample: `step` is not the claimed displacement-then-velocity
composition of the solver's own phase methods.  On `testC3` (zero velocity,
acceleration `(1, 0)`, `dt = 1`) the source's `step` leaves velocity `(2, 0)`
at `(0, 0)` — `update_u_dot` runs first and `update_u` then scales the already
updated velocity — while the claimed order leaves `(1, 0)`. -/
theorem C3_counterexample :
    (testC3.step).map (fun u => u.velocities 0 0) = some ⟨2, 0⟩ ∧
    (testC3.step_claimed).map (fun u => u.velocities 0 0) = some ⟨1, 0⟩ ∧
    (testC3.step).map (fun u => u.velocities 0 0) ≠
      (testC3.step_claimed).map (fun u => u.velocities 0 0) := by
  decide

/-- C3 as amended: `step` executes `update_u_dot` (the velocity update)
BEFORE `update_u`, then strain, then stress; consequently the `update_u`
increment of a step uses the velocity from AFTER that step's velocity update:
for every state whose step succeeds and every in-range cell with pre-step
acceleration `a`, the post-step velocity is `w + w * dt` with
`w = v + a * dt` the post-phase-2 velocity (`v` the pre-step velocity). -/
theorem C3_amended {s t : LinearElasticityPDE} (h : s.step = some t) (x y : Nat)
    (hx : x < s.columns) (hy : y < s.rows) (a : Vector2)
    (ha : s.get_u_double_dot x y = some a) :
    t.velocities x y =
      (s.velocities x y + a * s.dt) + (s.velocities x y + a * s.dt) * s.dt := by
  obtain ⟨s1, s3, s4, h1, h3, h4, ht⟩ := step_decomp h
  obtain ⟨-, e1⟩ := update_u_dot_some h1
  obtain ⟨-, e3⟩ := update_strain_some h3
  obtain ⟨-, e4⟩ := update_stress_some h4
  subst ht e4 e3 e1
  simp [LinearElasticityPDE.update_u, LinearElasticityPDE.get_u_dot, ha, hx, hy]

/-- C3 amended witness: at `testC3` and cell `(1, 1)`, whose acceleration is
`(1, 0)`, the formula of `C3_amended` evaluates to `(2, 0)`. -/
theorem C3_amended_witness :
    (testC3.step).map (fun u => u.velocities 1 1) = some ⟨2, 0⟩ := by
  cases hh : testC3.step with
  | none =>
    have hs : (testC3.step).isSome = true := by decide
    rw [hh] at hs
    exact absurd hs (by decide)
  | some t =>
    have hv := C3_amended hh 1 1 (by decide) (by decide) ⟨1, 0⟩ (by decide)
    show some (t.velocities 1 1) = some ⟨2, 0⟩
    rw [hv]
    decide

/-- C4 (code bug, evaluated at the failing input): on the 3-cell linear field
`f(x) = x` with `dx = 1`, `partial_derivative` returns the claimed one-sided
values `1` at both boundaries, but returns `2` at the interior index `1` —
`(f[+1] - f[-1]) / dx`, twice the analytic slope, instead of the claimed
central difference `(f[+1] - f[-1]) / (2 * dx) = 1`. -/
theorem C4_interior_stencil_bug :
    pderiv testC4 1 0 0 Direction.x = some 1 ∧
    pderiv testC4 1 2 0 Direction.x = some 1 ∧
    pderiv testC4 1 1 0 Direction.x = some 2 ∧
    pderiv testC4 1 1 0 Direction.x ≠ some 1 := by
  decide

/-- C5 counterexample: a single step with `dt = 0` does NOT leave all grids
unchanged.  On `testC5c` (`dt = 0`, zero displacements, strains grid holding
`[[1, 2], [3, 4]]`), the step overwrites the strains grid with the
constitutive-law values of the zero displacement field, i.e. `Tensor.zero`. -/
theorem C5_counterexample :
    testC5c.dt = 0 ∧
    (testC5c.step).map (fun u => u.strains 0 0) = some Tensor.zero ∧
    testC5c.strains 0 0 = ⟨1, 2, 3, 4⟩ ∧
    (testC5c.step).map (fun u => u.strains 0 0) ≠ some (testC5c.strains 0 0) := by
  decide

/-- C5 as amended: a single `step` with `dt = 0` leaves the material, force,
displacement, velocity and STRESS grids unchanged, but overwrites the strains
grid with the constitutive-law values `get_stress` computed from the
(unchanged) displacement field — so the state is fully unchanged only when the
strains grid already held those values. -/
theorem C5_amended {s t : LinearElasticityPDE} (h0 : s.dt = 0) (h : s.step = some t) :
    t.material_dist = s.material_dist ∧
    t.external_force_field = s.external_force_field ∧
    t.displacements = s.displacements ∧
    t.stresses = s.stresses ∧
    t.velocities = s.velocities ∧
    ∀ x y, x < s.columns → y < s.rows → s.get_stress x y = some (t.strains x y) := by
  obtain ⟨s1, s3, s4, h1, h3, h4, ht⟩ := step_decomp h
  obtain ⟨-, e1⟩ := update_u_dot_some h1
  have hv1 : (fun x y => if x < s.columns ∧ y < s.rows then
      s.velocities x y + ((s.get_u_double_dot x y).getD Vector2.zero) * s.dt
      else s.velocities x y) = s.velocities := by
    funext x y
    rw [h0]
    split
    · rw [vecMulZero, vecAddZero]
    · rfl
  rw [hv1] at e1
  have hs1 : s1 = s := e1
  rw [hs1] at h3
  have hu : s.update_u = s := by
    show { s with velocities := fun x y => if x < s.columns ∧ y < s.rows then
        s.velocities x y + (s.get_u_dot x y) * s.dt else s.velocities x y } = s
    have hv2 : (fun x y => if x < s.columns ∧ y < s.rows then
        s.velocities x y + (s.get_u_dot x y) * s.dt else s.velocities x y) = s.velocities := by
      funext x y
      rw [h0]
      split
      · rw [vecMulZero, vecAddZero]
      · rfl
    rw [hv2]
  rw [hu] at h3
  obtain ⟨-, e3⟩ := update_strain_some h3
  obtain ⟨c4, e4⟩ := update_stress_some h4
  refine ⟨by rw [ht, e4, e3], by rw [ht, e4, e3], by rw [ht, e4, e3], by rw [ht, e4, e3],
    by rw [ht, e4, e3], ?_⟩
  intro x y hx hy
  have hcols : s3.columns = s.columns := by rw [e3]
  have hrows : s3.rows = s.rows := by rw [e3]
  have h5 : t.strains x y = if x < s3.columns ∧ y < s3.rows then
      (s3.get_stress x y).getD Tensor.zero else s3.strains x y := by
    rw [ht, e4]
  rw [hcols, hrows, if_pos ⟨hx, hy⟩] at h5
  have hgs : s3.get_stress x y = s.get_stress x y := by rw [e3]; rfl
  have hin := (allCells_iff _ _ _).mp c4 x (by rw [hcols]; exact hx) y (by rw [hrows]; exact hy)
  obtain ⟨w, hw⟩ := Option.isSome_iff_exists.mp hin
  rw [hw] at h5
  rw [hgs] at hw
  rw [hw, h5]
  rfl

/-- C5 amended witness: on `testC5w` (`dt = 0`, nonzero velocities,
displacements and stresses), the step keeps velocity `(3, 4)` and stress
`[[5, 6], [7, 8]]` at `(0, 0)`, and the strains cell receives the
`get_stress` value of the constant displacement field, `Tensor.zero`. -/
theorem C5_amended_witness :
    (testC5w.step).map (fun u => u.velocities 0 0) = some ⟨3, 4⟩ ∧
    (testC5w.step).map (fun u => u.stresses 0 0) = some ⟨5, 6, 7, 8⟩ ∧
    (testC5w.step).map (fun u => u.strains 0 0) = some Tensor.zero := by
  cases hh : testC5w.step with
  | none =>
    have hs : (testC5w.step).isSome = true := by decide
    rw [hh] at hs
    exact absurd hs (by decide)
  | some t =>
    obtain ⟨hm, hf, hd, hst, hv, hstr⟩ := C5_amended (by decide) hh
    refine ⟨?_, ?_, ?_⟩
    · show some (t.velocities 0 0) = some ⟨3, 4⟩
      rw [congrFun (congrFun hv 0) 0]
      decide
    · show some (t.stresses 0 0) = some ⟨5, 6, 7, 8⟩
      rw [congrFun (congrFun hst 0) 0]
      decide
    · show some (t.strains 0 0) = some Tensor.zero
      have h1 := hstr 0 0 (by decide) (by decide)
      have h2 : testC5w.get_stress 0 0 = some Tensor.zero := by decide
      rw [h1] at h2
      exact h2

/-- C6 counterexample: at a cell whose material has NEGATIVE density `-1`
(zero stresses, external force `(1, 0)`), the density is not greater than `0`
yet `get_u_double_dot` returns `(-1, 0)`, not the zero vector the claim
requires: the source's guard is the falsiness test `not density`, which only
catches density `= 0`. -/
theorem C6_counterexample :
    ¬ 0 < (testC6.get_material 0 0).density ∧
    testC6.get_u_double_dot 0 0 = some ⟨-1, 0⟩ ∧
    testC6.get_u_double_dot 0 0 ≠ some Vector2.zero := by
  decide

/-- C6 as amended: for every in-range cell, `get_u_double_dot` returns the
zero vector exactly when the cell material's density is `= 0`, and otherwise
(any nonzero density, including negative) returns
`(tensor_divergence(stresses, dx, i, j) + externalForce(i, j)) * (1/density)`;
in particular the division only ever happens with a nonzero density. -/
theorem C6_amended (s : LinearElasticityPDE) (i j : Nat)
    (_hi : i < s.columns) (_hj : j < s.rows) :
    ((s.get_material i j).density = 0 → s.get_u_double_dot i j = some Vector2.zero) ∧
    ((s.get_material i j).density ≠ 0 → s.get_u_double_dot i j =
      (tensor_divergence s.stressGrid s.dx i j).map
        (fun td => (td + s.get_external_force i j) * (1 / (s.get_material i j).density))) := by
  constructor
  · intro h
    simp [LinearElasticityPDE.get_u_double_dot, h]
  · intro h
    simp [LinearElasticityPDE.get_u_double_dot, h]

/-- C6 amended witness: density `2` with force `(4, 0)` and zero stresses
gives acceleration `(2, 0)`; density `0` with the same force gives `(0, 0)`. -/
theorem C6_amended_witness :
    testC6b.get_u_double_dot 0 0 = some ⟨2, 0⟩ ∧
    testC6c.get_u_double_dot 0 0 = some Vector2.zero := by
  constructor
  · have h := (C6_amended testC6b 0 0 (by decide) (by decide)).2 (by decide)
    rw [h]
    decide
  · exact (C6_amended testC6c 0 0 (by decide) (by decide)).1 (by decide)

/-- C7 counterexample: on the non-symmetric tensor field `testC7`
(`yx = y`, all other components zero, `dx = 1`), the source's
`tensor_divergence` returns `(1, 0)` at `(0, 0)` while the spec's row
decomposition `(div(row_x), div(row_y))` gives `(0, 0)`: the claim's formula
does not describe the code. -/
theorem C7_counterexample :
    tensor_divergence testC7 1 0 0 = some ⟨1, 0⟩ ∧
    tensor_divergence_rows testC7 1 0 0 = some ⟨0, 0⟩ ∧
    tensor_divergence testC7 1 0 0 ≠ tensor_divergence_rows testC7 1 0 0 := by
  decide

/-- C7 as amended: `tensor_divergence` decomposes the field into its two
COLUMN-vector fields `(xx, yx)` and `(xy, yy)` and returns their divergences —
equivalently, it is exactly the spec's row decomposition applied to the
pointwise-transposed tensor field (so the two agree on symmetric fields). -/
theorem C7_amended (g : Grid Tensor) (dx : ℚ) (x y : Nat) :
    tensor_divergence g dx x y = tensor_divergence_rows (transposeGrid g) dx x y := rfl

/-- C8: for every material and force configuration given at construction and
every number of steps, the displacements grid and the stresses grid still hold
exactly their construction contents — the zero vector and the zero tensor at
every cell: no solver phase ever writes to either grid (`update_u` writes the
velocities grid and `update_stress` writes the strains grid). -/
theorem C8_disp_stress_never_written
    (mat : Nat → Nat → Material) (force : Nat → Nat → Vector2)
    (L H T dx dt : ℚ) (n : Nat) (t : LinearElasticityPDE)
    (h : stepN n (LinearElasticityPDE.init mat force L H T dx dt) = some t) :
    ∀ x y, t.displacements x y = Vector2.zero ∧ t.stresses x y = Tensor.zero := by
  obtain ⟨hd, hs⟩ := stepN_keeps_disp_stress n _ t h
  intro x y
  exact ⟨by rw [hd]; rfl, by rw [hs]; rfl⟩

/-- C8 witness: one step of a 2 x 2 `init` solver over the zero-density
material leaves `(0, 0)`'s displacement and stress at their construction
values. -/
theorem C8_disp_stress_never_written_witness :
    (stepN 1 testC8).map (fun u => (u.displacements 0 0, u.stresses 0 0)) =
      some (Vector2.zero, Tensor.zero) := by
  cases hh : stepN 1 testC8 with
  | none =>
    have hs : (stepN 1 testC8).isSome = true := by decide
    rw [hh] at hs
    exact absurd hs (by decide)
  | some t =>
    have h := C8_disp_stress_never_written (fun _ _ => mkMat 0 0 0)
      (fun _ _ => Vector2.zero) 2 2 1 1 1 1 t hh 0 0
    show some (t.displacements 0 0, t.stresses 0 0) = some (Vector2.zero, Tensor.zero)
    rw [h.1, h.2]

/-- C9 (code bug, evaluated at the failing inputs): on the `Grid(2, 3)` cell
storage `testC9` (2 columns, 3 rows), `replace_cell` contradicts its own
docstring (position `(column, row)`, the convention `get_cell` realizes as
`cells[row][column]`): the in-bounds position `(1, 2)` raises `IndexError`
(`none`); the out-of-claimed-bounds calls with `x = -1` and `x = 2` succeed;
and after `replace_cell(0, 1, 99)` the cell at position `(0, 1)` is unchanged
(`10`) while position `(1, 0)` now reads `99`. -/
theorem C9_replace_cell_bug :
    testC9.replace_cell 1 2 99 = none ∧
    (testC9.replace_cell (-1) 0 99).isSome = true ∧
    (testC9.replace_cell 2 0 99).isSome = true ∧
    (testC9.replace_cell 0 1 99).bind (fun g => g.get_cell 0 1) = some 10 ∧
    (testC9.replace_cell 0 1 99).bind (fun g => g.get_cell 1 0) = some 99 := by
  decide
